import Mathlib

/-!
Verification of the ticket query layer of the technical-support MCP server
(`src/mcp_server.py`).  The SQLite store is modelled as an optional list of
ticket rows (`none` when the database file is absent), each query tool as a
pure function returning `Except Err`, and the SQL constructs that the tools
use (equality filters, `ORDER BY fecha_creacion DESC`, `LIMIT`, `GROUP BY`
with counts, `LIKE` with wildcard patterns) as executable Lean functions.
-/

namespace Soporte

/-- One row of the `tickets` table created by `scripts/setup_db.py`:
integer primary key, five text columns (`descripcion` nullable), and two
ISO-8601 timestamp text columns. -/
structure Ticket where
  id : Nat
  cliente : String
  asunto : String
  descripcion : Option String
  estado : String
  prioridad : String
  fecha_creacion : String
  fecha_actualizacion : String
deriving DecidableEq, Repr

/-- The table contents.  `Option Store` models presence of the database
file: `none` when `soporte.db` does not exist. -/
abbrev Store := List Ticket

/-- Exceptions the server can raise: `notFound` models the
`FileNotFoundError` of `get_db_connection`, `invalidArgument` the
`ValueError` of the three tools, and `storeFailure` an uncaught error from
the underlying storage engine. -/
inductive Err where
  | notFound (msg : String)
  | invalidArgument (msg : String)
  | storeFailure (msg : String)
deriving DecidableEq, Repr

/-- Message of the `FileNotFoundError` raised when `soporte.db` is
missing: it instructs the caller to run the seeding script first. -/
def db_missing_message : String :=
  "Base de datos no encontrada en soporte.db. " ++
  "Ejecuta poetry run python scripts/setup_db.py primero."

/-- Models `get_db_connection`: raises `FileNotFoundError` when the
database file does not exist, otherwise hands back the table contents. -/
def get_db_connection (store : Option Store) : Except Err Store :=
  match store with
  | none => .error (.notFound db_missing_message)
  | some ts => .ok ts

deriving instance DecidableEq for Except

/-- Lexicographic order on lists of characters, by code point: SQLite
compares `TEXT` values byte-wise, which on the ASCII ISO-8601 timestamps
of this store coincides with code-point lexicographic order. -/
def leLex : List Char → List Char → Bool
  | [], _ => true
  | _ :: _, [] => false
  | a :: as, b :: bs =>
    if a.toNat < b.toNat then true
    else if b.toNat < a.toNat then false
    else leLex as bs

/-- SQLite text comparison, lifted to strings. -/
def cadena_le (a b : String) : Bool := leLex a.data b.data

theorem leLex_total : ∀ xs ys : List Char, leLex xs ys = true ∨ leLex ys xs = true
  | [], _ => .inl rfl
  | _ :: _, [] => .inr rfl
  | a :: as, b :: bs => by
    by_cases hab : a.toNat < b.toNat
    · left; simp [leLex, hab]
    · by_cases hba : b.toNat < a.toNat
      · right; simp [leLex, hba]
      · cases leLex_total as bs with
        | inl h => left; simp [leLex, hab, hba, h]
        | inr h => right; simp [leLex, hab, hba, h]

theorem leLex_trans : ∀ xs ys zs : List Char,
    leLex xs ys = true → leLex ys zs = true → leLex xs zs = true
  | [], _, _, _, _ => rfl
  | _ :: _, [], _, h1, _ => by simp [leLex] at h1
  | _ :: _, _ :: _, [], _, h2 => by simp [leLex] at h2
  | x :: xs, y :: ys, z :: zs, h1, h2 => by
    simp only [leLex] at h1 h2 ⊢
    split_ifs at h1 h2 ⊢ <;> try omega
    all_goals
      first
      | rfl
      | exact leLex_trans xs ys zs h1 h2

/-- ASCII lower-casing, applied code point by code point: models Python
`str.lower()` on the ASCII argument values this server receives. -/
def minusculas (s : String) : String := ⟨s.data.map Char.toLower⟩

/-- Row order produced by `ORDER BY fecha_creacion DESC`: `a` may come
before `b` when the timestamp of `b` is at most that of `a`. -/
def fecha_desc (a b : Ticket) : Prop :=
  cadena_le b.fecha_creacion a.fecha_creacion = true

instance : DecidableRel fecha_desc := fun a b =>
  inferInstanceAs (Decidable (cadena_le b.fecha_creacion a.fecha_creacion = true))

instance : IsTotal Ticket fecha_desc :=
  ⟨fun a b => leLex_total b.fecha_creacion.data a.fecha_creacion.data⟩

instance : IsTrans Ticket fecha_desc :=
  ⟨fun _ _ _ hab hbc => leLex_trans _ _ _ hbc hab⟩

/-- The sort performed by `ORDER BY fecha_creacion DESC` (ties are in
unspecified order; a stable sort is one faithful realisation). -/
def ordenar_por_fecha_desc (ts : List Ticket) : List Ticket :=
  List.insertionSort fecha_desc ts

/-- Allowed values of the `prioridad` filter of `consultar_tickets`. -/
def prioridades_validas : List String := ["baja", "media", "alta", "urgente"]

/-- Allowed values of the `estado` filter of `consultar_tickets`. -/
def estados_validos : List String := ["abierto", "cerrado"]

/-- Models the Python idiom `if arg:` followed by `arg = arg.lower()`:
`None` and the empty string are falsy, hence treated as an absent filter;
a non-empty string is lower-cased. -/
def normalizar_filtro (arg : Option String) : Option String :=
  match arg with
  | none => none
  | some s => if s = "" then none else some (minusculas s)

/-- The `WHERE` clause built by `consultar_tickets`: zero, one or two
equality predicates joined by `AND`. -/
def coincide_filtros (pfiltro efiltro : Option String) (t : Ticket) : Bool :=
  (match pfiltro with
   | none => true
   | some p => t.prioridad == p) &&
  (match efiltro with
   | none => true
   | some e => t.estado == e)

/-- Models `limite = min(max(1, limite), 100)`. -/
def clamp_limite (limite : Int) : Nat := (min (max 1 limite) 100).toNat

/-- The filtered listing before the `LIMIT` clause is applied. -/
def consulta_sin_limite (ts : List Ticket) (pfiltro efiltro : Option String) : List Ticket :=
  ordenar_por_fecha_desc (ts.filter (coincide_filtros pfiltro efiltro))

/-- The full `SELECT` of `consultar_tickets`: filter, order by
`fecha_creacion` descending, cap at the clamped limit. -/
def ejecutar_consulta (ts : List Ticket) (pfiltro efiltro : Option String)
    (limite : Int) : List Ticket :=
  (consulta_sin_limite ts pfiltro efiltro).take (clamp_limite limite)

/-- Message of the `ValueError` raised for an invalid `prioridad`. -/
def prioridad_invalida_msg (p : String) : String :=
  "Prioridad inválida: " ++ p ++ ". Usa: baja, media, alta, urgente"

/-- Message of the `ValueError` raised for an invalid `estado`. -/
def estado_invalido_msg (e : String) : String :=
  "Estado inválido: " ++ e ++ ". Usa: abierto, cerrado"

/-- Second half of `consultar_tickets`: validation of `estado` and the
query execution, after `prioridad` has already been validated. -/
def consultar_tickets_estado (ts : Store) (pfiltro : Option String)
    (estado : Option String) (limite : Int) : Except Err (List Ticket) :=
  match normalizar_filtro estado with
  | some e =>
    if e ∈ estados_validos then .ok (ejecutar_consulta ts pfiltro (some e) limite)
    else .error (.invalidArgument (estado_invalido_msg e))
  | none => .ok (ejecutar_consulta ts pfiltro none limite)

/-- Models the tool `consultar_tickets(prioridad, estado, limite)`. -/
def consultar_tickets (store : Option Store) (prioridad estado : Option String)
    (limite : Int) : Except Err (List Ticket) :=
  match get_db_connection store with
  | .error e => .error e
  | .ok ts =>
    match normalizar_filtro prioridad with
    | some p =>
      if p ∈ prioridades_validas then
        consultar_tickets_estado ts (some p) estado limite
      else .error (.invalidArgument (prioridad_invalida_msg p))
    | none => consultar_tickets_estado ts none estado limite

/-- SQLite `LIKE` pattern matching over code points: a pattern percent
sign matches any sequence of characters, a pattern underscore matches any
single character, and every other pattern character matches itself.
Case-insensitivity is obtained by lower-casing both sides beforehand. -/
def likeMatch : List Char → List Char → Bool
  | [], s => s.isEmpty
  | p :: ps, s =>
    if p = Char.ofNat 37 then
      likeMatch ps s ||
        (match s with
         | [] => false
         | _ :: s2 => likeMatch (p :: ps) s2)
    else
      match s with
      | [] => false
      | c :: s2 => (p = Char.ofNat 95 || p = c) && likeMatch ps s2
termination_by p s => (s.length, p.length)

set_option allowUnsafeReducibility true in
attribute [semireducible] likeMatch

/-- Evaluation of `columna LIKE patron` on a non-null text value, with the
ASCII case folding SQLite applies to `LIKE`. -/
def like_coincide (patron s : String) : Bool :=
  likeMatch (minusculas patron).data (minusculas s).data

/-- The `LIKE` pattern built by `buscar_tickets_por_texto`: the search
text wrapped with wildcard markers on both ends. -/
def patron_busqueda (busqueda : String) : String := "%" ++ busqueda ++ "%"

/-- Allowed values of the `campo` argument of `buscar_tickets_por_texto`. -/
def campos_validos : List String := ["asunto", "descripcion", "ambos"]

/-- The `WHERE` clause built by `buscar_tickets_por_texto` for a
(lower-cased) `campo`: an `OR` of two `LIKE` tests for `"ambos"`, a single
`LIKE` test otherwise.  A null `descripcion` never matches, as in SQL. -/
def coincide_busqueda (busqueda campo : String) (t : Ticket) : Bool :=
  if campo = "ambos" then
    like_coincide (patron_busqueda busqueda) t.asunto ||
      (match t.descripcion with
       | none => false
       | some d => like_coincide (patron_busqueda busqueda) d)
  else if campo = "descripcion" then
    (match t.descripcion with
     | none => false
     | some d => like_coincide (patron_busqueda busqueda) d)
  else
    like_coincide (patron_busqueda busqueda) t.asunto

/-- Message of the `ValueError` raised for an invalid `campo`. -/
def campo_invalido_msg (c : String) : String :=
  "Campo inválido: " ++ c ++ ". Usa: asunto, descripcion, ambos"

/-- Models the tool `buscar_tickets_por_texto(busqueda, campo, limite)`. -/
def buscar_tickets_por_texto (store : Option Store) (busqueda campo : String)
    (limite : Int) : Except Err (List Ticket) :=
  match get_db_connection store with
  | .error e => .error e
  | .ok ts =>
    let c := minusculas campo
    if c ∈ campos_validos then
      .ok ((ordenar_por_fecha_desc (ts.filter (coincide_busqueda busqueda c))).take
        (clamp_limite limite))
    else .error (.invalidArgument (campo_invalido_msg c))

/-- The `metricas_adicionales` sub-dictionary of `obtener_estadisticas`. -/
structure MetricasAdicionales where
  tickets_abiertos : Nat
  tickets_urgentes : Nat
  top_5_clientes : List (String × Nat)
deriving DecidableEq, Repr

/-- The dictionary returned by `obtener_estadisticas`. -/
structure Estadisticas where
  total_tickets : Nat
  distribucion : List (String × Nat)
  metricas_adicionales : MetricasAdicionales
deriving DecidableEq, Repr

/-- Allowed values of the `agrupar_por` argument of `obtener_estadisticas`. -/
def criterios_validos : List String := ["estado", "prioridad", "cliente"]

/-- The grouping column selected by a (validated, lower-cased)
`agrupar_por` value. -/
def campo_agrupacion (criterio : String) (t : Ticket) : String :=
  if criterio = "prioridad" then t.prioridad
  else if criterio = "cliente" then t.cliente
  else t.estado

/-- The result of `SELECT f, COUNT(*) FROM tickets GROUP BY f`: one pair
per distinct value of the grouping field, holding how many rows carry it. -/
def agrupar_conteo (f : Ticket → String) (ts : List Ticket) : List (String × Nat) :=
  ((ts.map f).dedup).map (fun v => (v, (ts.map f).count v))

/-- Row order produced by `ORDER BY cantidad DESC` on grouped counts. -/
def cantidad_desc (a b : String × Nat) : Prop := b.2 ≤ a.2

instance : DecidableRel cantidad_desc := fun a b =>
  inferInstanceAs (Decidable (b.2 ≤ a.2))

instance : IsTotal (String × Nat) cantidad_desc := ⟨fun a b => Nat.le_total b.2 a.2⟩

instance : IsTrans (String × Nat) cantidad_desc := ⟨fun _ _ _ h1 h2 => le_trans h2 h1⟩

/-- The sort performed by `ORDER BY cantidad DESC` (count ties are in
unspecified order; a stable sort is one faithful realisation). -/
def ordenar_por_cantidad_desc (l : List (String × Nat)) : List (String × Nat) :=
  List.insertionSort cantidad_desc l

/-- Message of the `ValueError` raised for an invalid `agrupar_por`. -/
def criterio_invalido_msg (c : String) : String :=
  "Criterio inválido: " ++ c ++ ". Usa: estado, prioridad, cliente"

/-- Models the tool `obtener_estadisticas(agrupar_por)`. -/
def obtener_estadisticas (store : Option Store) (agrupar_por : String) :
    Except Err Estadisticas :=
  match get_db_connection store with
  | .error e => .error e
  | .ok ts =>
    let a := minusculas agrupar_por
    if a ∈ criterios_validos then
      .ok
        { total_tickets := ts.length
          distribucion := ordenar_por_cantidad_desc (agrupar_conteo (campo_agrupacion a) ts)
          metricas_adicionales :=
            { tickets_abiertos := (ts.filter (fun t => t.estado == "abierto")).length
              tickets_urgentes := (ts.filter (fun t => t.prioridad == "urgente")).length
              top_5_clientes :=
                (ordenar_por_cantidad_desc (agrupar_conteo Ticket.cliente ts)).take 5 } }
    else .error (.invalidArgument (criterio_invalido_msg a))

/-- Message standing for an arbitrary uncaught storage-engine error
(for example a corrupted database file). -/
def fallo_almacenamiento_msg : String := "error del motor de almacenamiento"

/-!
Instrumented variants of the three tools for reasoning about handle
release.  The second component of the result counts the store handles
still open when the call ends.  The `fallo` flag injects an uncaught
storage-engine error at the first `cursor.execute` that runs after
validation; the source wraps no statement in `try`/`finally`, so on that
exit path `conn.close()` is skipped.
-/

/-- Instrumented second half of `consultar_tickets`; the handle is open
(count 1) on entry. -/
def consultar_tickets_estado_conn (ts : Store) (pfiltro : Option String)
    (estado : Option String) (limite : Int) (fallo : Bool) :
    Except Err (List Ticket) × Nat :=
  match normalizar_filtro estado with
  | some e =>
    if e ∈ estados_validos then
      if fallo then (.error (.storeFailure fallo_almacenamiento_msg), 1)
      else (.ok (ejecutar_consulta ts pfiltro (some e) limite), 0)
    else (.error (.invalidArgument (estado_invalido_msg e)), 0)
  | none =>
    if fallo then (.error (.storeFailure fallo_almacenamiento_msg), 1)
    else (.ok (ejecutar_consulta ts pfiltro none limite), 0)

/-- Instrumented `consultar_tickets`: traces `conn.close()` on the
validation-failure and success paths, and the absence of any close when a
storage error is raised mid-query. -/
def consultar_tickets_conn (store : Option Store) (prioridad estado : Option String)
    (limite : Int) (fallo : Bool) : Except Err (List Ticket) × Nat :=
  match get_db_connection store with
  | .error e => (.error e, 0)
  | .ok ts =>
    match normalizar_filtro prioridad with
    | some p =>
      if p ∈ prioridades_validas then
        consultar_tickets_estado_conn ts (some p) estado limite fallo
      else (.error (.invalidArgument (prioridad_invalida_msg p)), 0)
    | none => consultar_tickets_estado_conn ts none estado limite fallo

/-- Instrumented `obtener_estadisticas`. -/
def obtener_estadisticas_conn (store : Option Store) (agrupar_por : String)
    (fallo : Bool) : Except Err Estadisticas × Nat :=
  match get_db_connection store with
  | .error e => (.error e, 0)
  | .ok ts =>
    let a := minusculas agrupar_por
    if a ∈ criterios_validos then
      if fallo then (.error (.storeFailure fallo_almacenamiento_msg), 1)
      else
        match obtener_estadisticas (some ts) agrupar_por with
        | .error e => (.error e, 0)
        | .ok stats => (.ok stats, 0)
    else (.error (.invalidArgument (criterio_invalido_msg a)), 0)

/-- Instrumented `buscar_tickets_por_texto`. -/
def buscar_tickets_por_texto_conn (store : Option Store) (busqueda campo : String)
    (limite : Int) (fallo : Bool) : Except Err (List Ticket) × Nat :=
  match get_db_connection store with
  | .error e => (.error e, 0)
  | .ok ts =>
    let c := minusculas campo
    if c ∈ campos_validos then
      if fallo then (.error (.storeFailure fallo_almacenamiento_msg), 1)
      else
        match buscar_tickets_por_texto (some ts) busqueda campo limite with
        | .error e => (.error e, 0)
        | .ok r => (.ok r, 0)
    else (.error (.invalidArgument (campo_invalido_msg c)), 0)

/-- Concrete ticket used to instantiate the theorems: an open
high-priority row. -/
def tkAlta : Ticket :=
  { id := 1, cliente := "TechCorp", asunto := "Error 500", descripcion := some "desc a",
    estado := "abierto", prioridad := "alta", fecha_creacion := "2025-10-02",
    fecha_actualizacion := "2025-10-02" }

/-- Concrete ticket used to instantiate the theorems: a closed
low-priority row with a null description, created later than `tkAlta`. -/
def tkBaja : Ticket :=
  { id := 2, cliente := "Innovatech", asunto := "Timeout", descripcion := none,
    estado := "cerrado", prioridad := "baja", fecha_creacion := "2025-10-05",
    fecha_actualizacion := "2025-10-05" }

/-- Concrete ticket whose `asunto` (only) mentions the word "clave". -/
def tqAsunto : Ticket :=
  { id := 3, cliente := "CloudBase", asunto := "problema clave uno",
    descripcion := some "sin detalle", estado := "abierto", prioridad := "media",
    fecha_creacion := "2025-10-03", fecha_actualizacion := "2025-10-03" }

/-- Concrete ticket whose `descripcion` (only) mentions the word
"clave", created earlier than `tqAsunto`. -/
def tqDescripcion : Ticket :=
  { id := 4, cliente := "DataStream", asunto := "otro problema",
    descripcion := some "la clave dos", estado := "cerrado", prioridad := "baja",
    fecha_creacion := "2025-10-01", fecha_actualizacion := "2025-10-01" }

/-- Concrete ticket whose `asunto` is matched by a wildcard search text
that does not occur in it literally. -/
def tkComodin : Ticket :=
  { id := 5, cliente := "SecureNet", asunto := "aXb", descripcion := none,
    estado := "abierto", prioridad := "media",
    fecha_creacion := "2025-10-04", fecha_actualizacion := "2025-10-04" }

/-- Statistics record produced for the two-ticket store of the witnesses
when grouping by `prioridad`. -/
def statsW : Estadisticas :=
  { total_tickets := 2
    distribucion := [("alta", 1), ("baja", 1)]
    metricas_adicionales :=
      { tickets_abiertos := 1, tickets_urgentes := 0,
        top_5_clientes := [("TechCorp", 1), ("Innovatech", 1)] } }

/-- Literal prefix test over code points (no wildcard semantics). -/
def esPrefijo : List Char → List Char → Bool
  | [], _ => true
  | _ :: _, [] => false
  | a :: as, b :: bs => a = b && esPrefijo as bs

/-- Literal substring test over code points (no wildcard semantics):
whether `needle` occurs contiguously inside the second list. -/
def esSubcadena (needle : List Char) : List Char → Bool
  | [] => needle.isEmpty
  | c :: rest => esPrefijo needle (c :: rest) || esSubcadena needle rest

theorem consultar_tickets_estado_ok_eq (ts : Store) (pfiltro : Option String)
    (estado : Option String) (limite : Int) (result : List Ticket)
    (h : consultar_tickets_estado ts pfiltro estado limite = .ok result) :
    result = ejecutar_consulta ts pfiltro (normalizar_filtro estado) limite := by
  unfold consultar_tickets_estado at h
  cases he : normalizar_filtro estado with
  | none => rw [he] at h; exact (Except.ok.inj h).symm
  | some e =>
    rw [he] at h
    simp only at h
    by_cases hv : e ∈ estados_validos
    · rw [if_pos hv] at h; exact (Except.ok.inj h).symm
    · rw [if_neg hv] at h; exact absurd h (by simp)

theorem consultar_tickets_ok_eq (ts : Store) (prioridad estado : Option String)
    (limite : Int) (result : List Ticket)
    (hres : consultar_tickets (some ts) prioridad estado limite = .ok result) :
    result = ejecutar_consulta ts (normalizar_filtro prioridad)
      (normalizar_filtro estado) limite := by
  unfold consultar_tickets get_db_connection at hres
  simp only at hres
  cases hp : normalizar_filtro prioridad with
  | none =>
    rw [hp] at hres
    exact consultar_tickets_estado_ok_eq ts none estado limite result hres
  | some p =>
    rw [hp] at hres
    simp only at hres
    by_cases hv : p ∈ prioridades_validas
    · rw [if_pos hv] at hres
      exact consultar_tickets_estado_ok_eq ts (some p) estado limite result hres
    · rw [if_neg hv] at hres; exact absurd hres (by simp)

theorem mem_ejecutar_consulta {t : Ticket} {ts : Store} {pfiltro efiltro : Option String}
    {limite : Int} (h : t ∈ ejecutar_consulta ts pfiltro efiltro limite) :
    t ∈ ts ∧ coincide_filtros pfiltro efiltro t = true := by
  have h1 : t ∈ consulta_sin_limite ts pfiltro efiltro := List.mem_of_mem_take h
  have h2 : t ∈ ts.filter (coincide_filtros pfiltro efiltro) := by
    simpa [consulta_sin_limite, ordenar_por_fecha_desc,
      List.mem_insertionSort] using h1
  exact ⟨(List.mem_filter.mp h2).1, (List.mem_filter.mp h2).2⟩

theorem ejecutar_consulta_pairwise (ts : Store) (pfiltro efiltro : Option String)
    (limite : Int) :
    (ejecutar_consulta ts pfiltro efiltro limite).Pairwise fecha_desc := by
  have hs : (consulta_sin_limite ts pfiltro efiltro).Pairwise fecha_desc :=
    List.sorted_insertionSort fecha_desc _
  exact hs.sublist (List.take_sublist _ _)

/-- C1: for every store and every valid combination of the optional
`prioridad` and `estado` filters (case-insensitively compared), a
successful `consultar_tickets` call returns only stored tickets whose
`prioridad` and `estado` fields exactly equal the supplied (normalized)
filter values, combined with logical AND, ordered by `fecha_creacion`
descending; with both filters omitted it returns a prefix of the full
ticket set in `fecha_creacion`-descending order. -/
theorem consultar_tickets_filtra_y_ordena
    (ts : Store) (prioridad estado : Option String) (limite : Int)
    (result : List Ticket)
    (hres : consultar_tickets (some ts) prioridad estado limite = .ok result) :
    (∀ t ∈ result, t ∈ ts) ∧
    (∀ p, prioridad = some p → p ≠ "" → ∀ t ∈ result, t.prioridad = minusculas p) ∧
    (∀ e, estado = some e → e ≠ "" → ∀ t ∈ result, t.estado = minusculas e) ∧
    result.Pairwise fecha_desc ∧
    (prioridad = none → estado = none → result <+: ordenar_por_fecha_desc ts) := by
  have heq := consultar_tickets_ok_eq ts prioridad estado limite result hres
  subst heq
  refine ⟨fun t ht => (mem_ejecutar_consulta ht).1, ?_, ?_,
    ejecutar_consulta_pairwise ts _ _ limite, ?_⟩
  · intro p hp hpne t ht
    have hc := (mem_ejecutar_consulta ht).2
    rw [hp] at hc
    have hn : normalizar_filtro (some p) = some (minusculas p) := by
      simp [normalizar_filtro, hpne]
    rw [hn] at hc
    simp only [coincide_filtros, Bool.and_eq_true, beq_iff_eq] at hc
    exact hc.1
  · intro e he hene t ht
    have hc := (mem_ejecutar_consulta ht).2
    rw [he] at hc
    have hn : normalizar_filtro (some e) = some (minusculas e) := by
      simp [normalizar_filtro, hene]
    rw [hn] at hc
    simp only [coincide_filtros, Bool.and_eq_true, beq_iff_eq] at hc
    exact hc.2
  · intro hpn hen
    subst hpn; subst hen
    have hfil : ts.filter (coincide_filtros (normalizar_filtro none)
        (normalizar_filtro none)) = ts :=
      List.filter_eq_self.mpr (fun a _ => rfl)
    unfold ejecutar_consulta consulta_sin_limite
    rw [hfil]
    exact List.take_prefix _ _

/-- Witness for C1 at a concrete store and valid mixed-case filters. -/
theorem consultar_tickets_filtra_y_ordena_witness :
    consultar_tickets (some [tkAlta, tkBaja]) (some "Alta") (some "Abierto") 20 =
      .ok [tkAlta] ∧ ([tkAlta] : List Ticket).Pairwise fecha_desc :=
  ⟨by decide, (consultar_tickets_filtra_y_ordena [tkAlta, tkBaja] (some "Alta")
    (some "Abierto") 20 [tkAlta] (by decide)).2.2.2.1⟩

/-- C10: an empty string supplied as `prioridad` or `estado` is falsy in
the Python `if` guard, so it is treated as an absent filter: no
`InvalidArgument` is raised, no equality predicate is added, and the
result is the same as omitting the filter entirely. -/
theorem consultar_tickets_cadena_vacia (store : Option Store) (limite : Int) :
    consultar_tickets store (some "") (some "") limite =
      consultar_tickets store none none limite ∧
    consultar_tickets store (some "") none limite =
      consultar_tickets store none none limite ∧
    consultar_tickets store none (some "") limite =
      consultar_tickets store none none limite := by
  refine ⟨?_, ?_, ?_⟩ <;> cases store <;> rfl

/-- C5: every query operation invoked while the database file is absent
raises the not-found error, whose message instructs the caller to run the
seeding script first, before touching any data. -/
theorem operaciones_notfound_sin_base (prioridad estado : Option String)
    (busqueda campo agrupar_por : String) (limite : Int) :
    consultar_tickets none prioridad estado limite =
      .error (.notFound db_missing_message) ∧
    obtener_estadisticas none agrupar_por =
      .error (.notFound db_missing_message) ∧
    buscar_tickets_por_texto none busqueda campo limite =
      .error (.notFound db_missing_message) :=
  ⟨rfl, rfl, rfl⟩

theorem clamp_limite_bounds (limite : Int) :
    1 ≤ clamp_limite limite ∧ clamp_limite limite ≤ 100 ∧
    (limite ≤ 0 → clamp_limite limite = 1) ∧
    (100 < limite → clamp_limite limite = 100) := by
  unfold clamp_limite
  rw [Int.max_def, Int.min_def]
  split_ifs <;> omega

theorem length_ejecutar_consulta (ts : Store) (pfiltro efiltro : Option String)
    (limite : Int) :
    (ejecutar_consulta ts pfiltro efiltro limite).length =
      min (clamp_limite limite) (ts.filter (coincide_filtros pfiltro efiltro)).length := by
  unfold ejecutar_consulta consulta_sin_limite ordenar_por_fecha_desc
  rw [List.length_take, List.length_insertionSort]

theorem buscar_tickets_ok_eq (ts : Store) (busqueda campo : String) (limite : Int)
    (result : List Ticket)
    (h : buscar_tickets_por_texto (some ts) busqueda campo limite = .ok result) :
    result = (ordenar_por_fecha_desc
      (ts.filter (coincide_busqueda busqueda (minusculas campo)))).take
        (clamp_limite limite) := by
  unfold buscar_tickets_por_texto get_db_connection at h
  simp only at h
  by_cases hv : minusculas campo ∈ campos_validos
  · rw [if_pos hv] at h; exact (Except.ok.inj h).symm
  · rw [if_neg hv] at h; exact absurd h (by simp)

/-- C4: the limit argument of both listing tools is clamped into
[1, 100] rather than rejected: requesting 0 or a negative value yields
exactly 1 result when at least one ticket matches, and requesting more
than 100 yields at most 100 results. -/
theorem limite_acotado (limite : Int) :
    1 ≤ clamp_limite limite ∧ clamp_limite limite ≤ 100 ∧
    (∀ ts prioridad estado result,
      consultar_tickets (some ts) prioridad estado limite = .ok result →
        (limite ≤ 0 →
          ts.filter (coincide_filtros (normalizar_filtro prioridad)
            (normalizar_filtro estado)) ≠ [] →
          result.length = 1) ∧
        (100 < limite → result.length ≤ 100)) ∧
    (∀ ts busqueda campo result,
      buscar_tickets_por_texto (some ts) busqueda campo limite = .ok result →
        (limite ≤ 0 →
          ts.filter (coincide_busqueda busqueda (minusculas campo)) ≠ [] →
          result.length = 1) ∧
        (100 < limite → result.length ≤ 100)) := by
  obtain ⟨h1, h100, hneg, hbig⟩ := clamp_limite_bounds limite
  refine ⟨h1, h100, ?_, ?_⟩
  · intro ts prioridad estado result hres
    have heq := consultar_tickets_ok_eq ts prioridad estado limite result hres
    subst heq
    rw [length_ejecutar_consulta]
    constructor
    · intro hle hne
      rw [hneg hle]
      have : 0 < (ts.filter (coincide_filtros (normalizar_filtro prioridad)
          (normalizar_filtro estado))).length := List.length_pos.mpr hne
      omega
    · intro hgt
      rw [hbig hgt]
      omega
  · intro ts busqueda campo result hres
    have heq := buscar_tickets_ok_eq ts busqueda campo limite result hres
    subst heq
    rw [List.length_take]
    unfold ordenar_por_fecha_desc
    rw [List.length_insertionSort]
    constructor
    · intro hle hne
      rw [hneg hle]
      have : 0 < (ts.filter (coincide_busqueda busqueda (minusculas campo))).length :=
        List.length_pos.mpr hne
      omega
    · intro hgt
      rw [hbig hgt]
      omega

/-- Witness for C4: a negative limit on a two-ticket store yields exactly
one result. -/
theorem limite_acotado_witness :
    consultar_tickets (some [tkAlta, tkBaja]) none none (-5) = .ok [tkBaja] ∧
    ([tkBaja] : List Ticket).length = 1 :=
  ⟨by decide, ((limite_acotado (-5)).2.2.1 [tkAlta, tkBaja] none none [tkBaja]
    (by decide)).1 (by decide) (by decide)⟩

/-- C2 as stated is false at one input: the empty string is outside the
allowed priority set even after case normalization, yet
`consultar_tickets` treats it as an absent filter and succeeds instead of
raising `InvalidArgument`. -/
theorem filtros_invalidos_contraejemplo :
    minusculas "" ∉ prioridades_validas ∧
    consultar_tickets (some [tkAlta]) (some "") none 20 = .ok [tkAlta] :=
  ⟨by decide, by decide⟩

/-- C2 (amended): every invalid non-empty `prioridad` or `estado` value,
and every invalid `agrupar_por` or `campo` value (empty included), raises
`InvalidArgument` naming the normalized offending value; the error is the
same for every store, so no query result depends on the data, and the
read-only store is unchanged.  The empty string for `prioridad`/`estado`
is excluded: it is treated as an absent filter. -/
theorem filtros_invalidos_error (ts : Store) (limite : Int) :
    (∀ p, p ≠ "" → minusculas p ∉ prioridades_validas → ∀ estado,
      consultar_tickets (some ts) (some p) estado limite =
        .error (.invalidArgument (prioridad_invalida_msg (minusculas p)))) ∧
    (∀ e, e ≠ "" → minusculas e ∉ estados_validos → ∀ prioridad,
      (∀ q, normalizar_filtro prioridad = some q → q ∈ prioridades_validas) →
      consultar_tickets (some ts) prioridad (some e) limite =
        .error (.invalidArgument (estado_invalido_msg (minusculas e)))) ∧
    (∀ a, minusculas a ∉ criterios_validos →
      obtener_estadisticas (some ts) a =
        .error (.invalidArgument (criterio_invalido_msg (minusculas a)))) ∧
    (∀ c busqueda, minusculas c ∉ campos_validos →
      buscar_tickets_por_texto (some ts) busqueda c limite =
        .error (.invalidArgument (campo_invalido_msg (minusculas c)))) := by
  have hnorm : ∀ s : String, s ≠ "" →
      normalizar_filtro (some s) = some (minusculas s) := by
    intro s hs; simp [normalizar_filtro, hs]
  refine ⟨?_, ?_, ?_, ?_⟩
  · intro p hpne hpinv estado
    unfold consultar_tickets get_db_connection
    simp only
    rw [hnorm p hpne]
    simp only
    rw [if_neg hpinv]
  · intro e hene heinv prioridad hpv
    unfold consultar_tickets get_db_connection
    simp only
    cases hq : normalizar_filtro prioridad with
    | none =>
      simp only
      unfold consultar_tickets_estado
      rw [hnorm e hene]
      simp only
      rw [if_neg heinv]
    | some q =>
      simp only
      rw [if_pos (hpv q hq)]
      unfold consultar_tickets_estado
      rw [hnorm e hene]
      simp only
      rw [if_neg heinv]
  · intro a hainv
    unfold obtener_estadisticas get_db_connection
    simp only
    rw [if_neg hainv]
  · intro c busqueda hcinv
    unfold buscar_tickets_por_texto get_db_connection
    simp only
    rw [if_neg hcinv]

/-- Witness for the amended C2 at concrete invalid values. -/
theorem filtros_invalidos_error_witness :
    consultar_tickets (some [tkAlta]) (some "Extrema") none 20 =
      .error (.invalidArgument (prioridad_invalida_msg (minusculas "Extrema"))) ∧
    consultar_tickets (some [tkAlta]) (some "alta") (some "pendiente") 20 =
      .error (.invalidArgument (estado_invalido_msg (minusculas "pendiente"))) ∧
    obtener_estadisticas (some [tkAlta]) "pais" =
      .error (.invalidArgument (criterio_invalido_msg (minusculas "pais"))) ∧
    buscar_tickets_por_texto (some [tkAlta]) "x" "titulo" 20 =
      .error (.invalidArgument (campo_invalido_msg (minusculas "titulo"))) :=
  ⟨(filtros_invalidos_error [tkAlta] 20).1 "Extrema" (by decide) (by decide) none,
   (filtros_invalidos_error [tkAlta] 20).2.1 "pendiente" (by decide) (by decide)
     (some "alta") (by decide),
   (filtros_invalidos_error [tkAlta] 20).2.2.1 "pais" (by decide),
   (filtros_invalidos_error [tkAlta] 20).2.2.2 "titulo" "x" (by decide)⟩

theorem obtener_estadisticas_ok_eq (ts : Store) (agrupar_por : String)
    (stats : Estadisticas)
    (h : obtener_estadisticas (some ts) agrupar_por = .ok stats) :
    stats =
      { total_tickets := ts.length
        distribucion := ordenar_por_cantidad_desc
          (agrupar_conteo (campo_agrupacion (minusculas agrupar_por)) ts)
        metricas_adicionales :=
          { tickets_abiertos := (ts.filter (fun t => t.estado == "abierto")).length
            tickets_urgentes := (ts.filter (fun t => t.prioridad == "urgente")).length
            top_5_clientes :=
              (ordenar_por_cantidad_desc (agrupar_conteo Ticket.cliente ts)).take 5 } } := by
  unfold obtener_estadisticas get_db_connection at h
  simp only at h
  by_cases hv : minusculas agrupar_por ∈ criterios_validos
  · rw [if_pos hv] at h; exact (Except.ok.inj h).symm
  · rw [if_neg hv] at h; exact absurd h (by simp)

theorem sum_ordenar_por_cantidad (l : List (String × Nat)) :
    ((ordenar_por_cantidad_desc l).map (fun x => x.2)).sum =
      (l.map (fun x => x.2)).sum :=
  List.Perm.sum_eq ((List.perm_insertionSort cantidad_desc l).map (fun x => x.2))

theorem sum_agrupar_conteo (f : Ticket → String) (ts : List Ticket) :
    ((agrupar_conteo f ts).map (fun x => x.2)).sum = ts.length := by
  unfold agrupar_conteo
  rw [List.map_map]
  simpa using List.sum_map_count_dedup_eq_length (ts.map f)

/-- C3: for every store and every valid grouping criterion, the per-group
counts of the `distribucion` mapping returned by `obtener_estadisticas`
sum to the `total_tickets` count of the same result. -/
theorem distribucion_suma_total (ts : Store) (agrupar_por : String)
    (stats : Estadisticas)
    (h : obtener_estadisticas (some ts) agrupar_por = .ok stats) :
    (stats.distribucion.map (fun x => x.2)).sum = stats.total_tickets := by
  rw [obtener_estadisticas_ok_eq ts agrupar_por stats h]
  exact (sum_ordenar_por_cantidad _).trans (sum_agrupar_conteo _ ts)

/-- Witness for C3 on a concrete two-ticket store grouped by priority. -/
theorem distribucion_suma_total_witness :
    (statsW.distribucion.map (fun x => x.2)).sum = statsW.total_tickets :=
  distribucion_suma_total [tkAlta, tkBaja] "prioridad" statsW (by decide)

/-- C6: the `tickets_abiertos` metric of `obtener_estadisticas` equals
the number of tickets an unlimited `estado = "abierto"` filtered listing
would return, that is, the count of all stored tickets whose `estado` is
`"abierto"`. -/
theorem tickets_abiertos_es_conteo_abiertos (ts : Store) (agrupar_por : String)
    (stats : Estadisticas)
    (h : obtener_estadisticas (some ts) agrupar_por = .ok stats) :
    stats.metricas_adicionales.tickets_abiertos =
      (consulta_sin_limite ts none (some "abierto")).length := by
  rw [obtener_estadisticas_ok_eq ts agrupar_por stats h]
  unfold consulta_sin_limite ordenar_por_fecha_desc
  rw [List.length_insertionSort]
  have hf : List.filter (coincide_filtros none (some "abierto")) ts =
      List.filter (fun t => t.estado == "abierto") ts :=
    List.filter_congr (fun t _ => by simp [coincide_filtros])
  rw [hf]

/-- Witness for C6 on a concrete two-ticket store. -/
theorem tickets_abiertos_es_conteo_abiertos_witness :
    statsW.metricas_adicionales.tickets_abiertos =
      (consulta_sin_limite [tkAlta, tkBaja] none (some "abierto")).length :=
  tickets_abiertos_es_conteo_abiertos [tkAlta, tkBaja] "prioridad" statsW (by decide)

theorem coincide_busqueda_ambos_eq (b : String) (t : Ticket) :
    coincide_busqueda b "ambos" t =
      (coincide_busqueda b "asunto" t || coincide_busqueda b "descripcion" t) := by
  unfold coincide_busqueda
  rw [if_pos rfl, if_neg (by decide), if_neg (by decide), if_neg (by decide),
    if_pos rfl]

theorem length_ordenar_por_fecha_desc (ts : List Ticket) :
    (ordenar_por_fecha_desc ts).length = ts.length := by
  unfold ordenar_por_fecha_desc
  rw [List.length_insertionSort]

theorem mem_ordenar_filtrado {t : Ticket} {ts : List Ticket} {p : Ticket → Bool} :
    t ∈ ordenar_por_fecha_desc (ts.filter p) ↔ (t ∈ ts ∧ p t = true) := by
  unfold ordenar_por_fecha_desc
  rw [List.mem_insertionSort, List.mem_filter]

/-- C7 as stated is false at one input: with limit 1, the `"ambos"`
search returns a single ticket, while the union of the subject-only and
description-only searches contains a ticket it misses. -/
theorem busqueda_ambos_contraejemplo :
    buscar_tickets_por_texto (some [tqAsunto, tqDescripcion]) "clave" "ambos" 1 =
      .ok [tqAsunto] ∧
    buscar_tickets_por_texto (some [tqAsunto, tqDescripcion]) "clave" "descripcion" 1 =
      .ok [tqDescripcion] ∧
    tqDescripcion ∉ ([tqAsunto] : List Ticket) :=
  ⟨by decide, by decide, by decide⟩

/-- C7 (amended): whenever the clamped limit does not truncate (it is at
least the number of tickets matching the `"ambos"` search) and the store
rows are pairwise distinct, the `"ambos"` search returns exactly the
union, without duplicates, of what the subject-only and description-only
searches with the same text return: a ticket is returned by `"ambos"`
precisely when one of the single-field searches returns it, and it
appears exactly once. -/
theorem busqueda_ambos_union (ts : Store) (busqueda : String) (limite : Int)
    (ra rs rd : List Ticket) (hnd : ts.Nodup)
    (ha : buscar_tickets_por_texto (some ts) busqueda "ambos" limite = .ok ra)
    (hs : buscar_tickets_por_texto (some ts) busqueda "asunto" limite = .ok rs)
    (hd : buscar_tickets_por_texto (some ts) busqueda "descripcion" limite = .ok rd)
    (hfit : (ts.filter (coincide_busqueda busqueda "ambos")).length ≤
      clamp_limite limite) :
    (∀ t, t ∈ ra ↔ (t ∈ rs ∨ t ∈ rd)) ∧ ra.Nodup := by
  have hea := buscar_tickets_ok_eq ts busqueda "ambos" limite ra ha
  rw [show minusculas "ambos" = "ambos" from by decide] at hea
  have hes := buscar_tickets_ok_eq ts busqueda "asunto" limite rs hs
  rw [show minusculas "asunto" = "asunto" from by decide] at hes
  have hed := buscar_tickets_ok_eq ts busqueda "descripcion" limite rd hd
  rw [show minusculas "descripcion" = "descripcion" from by decide] at hed
  have hsub_s : List.Sublist (ts.filter (coincide_busqueda busqueda "asunto"))
      (ts.filter (coincide_busqueda busqueda "ambos")) := by
    apply List.monotone_filter_right
    intro t ht
    rw [coincide_busqueda_ambos_eq]
    simp only [ht, Bool.true_or]
  have hsub_d : List.Sublist (ts.filter (coincide_busqueda busqueda "descripcion"))
      (ts.filter (coincide_busqueda busqueda "ambos")) := by
    apply List.monotone_filter_right
    intro t ht
    rw [coincide_busqueda_ambos_eq]
    simp only [ht, Bool.or_true]
  have hta : ra = ordenar_por_fecha_desc (ts.filter (coincide_busqueda busqueda "ambos")) := by
    rw [hea]
    apply List.take_of_length_le
    rw [length_ordenar_por_fecha_desc]
    exact hfit
  have hts : rs = ordenar_por_fecha_desc (ts.filter (coincide_busqueda busqueda "asunto")) := by
    rw [hes]
    apply List.take_of_length_le
    rw [length_ordenar_por_fecha_desc]
    exact le_trans hsub_s.length_le hfit
  have htd : rd = ordenar_por_fecha_desc (ts.filter (coincide_busqueda busqueda "descripcion")) := by
    rw [hed]
    apply List.take_of_length_le
    rw [length_ordenar_por_fecha_desc]
    exact le_trans hsub_d.length_le hfit
  constructor
  · intro t
    rw [hta, hts, htd, mem_ordenar_filtrado, mem_ordenar_filtrado,
      mem_ordenar_filtrado, coincide_busqueda_ambos_eq]
    constructor
    · rintro ⟨htts, hor⟩
      rcases Bool.or_eq_true _ _ |>.mp hor with h | h
      · exact .inl ⟨htts, h⟩
      · exact .inr ⟨htts, h⟩
    · rintro (⟨htts, h⟩ | ⟨htts, h⟩)
      · exact ⟨htts, by simp [h]⟩
      · exact ⟨htts, by simp [h]⟩
  · rw [hta]
    exact ((List.perm_insertionSort fecha_desc _).nodup_iff).mpr (hnd.filter _)

/-- Witness for the amended C7 at a limit large enough for both
matching tickets. -/
theorem busqueda_ambos_union_witness :
    buscar_tickets_por_texto (some [tqAsunto, tqDescripcion]) "clave" "ambos" 20 =
      .ok [tqAsunto, tqDescripcion] ∧
    ([tqAsunto, tqDescripcion] : List Ticket).Nodup :=
  ⟨by decide,
    (busqueda_ambos_union [tqAsunto, tqDescripcion] "clave" 20
      [tqAsunto, tqDescripcion] [tqAsunto] [tqDescripcion] (by decide) (by decide)
      (by decide) (by decide) (by decide)).2⟩

/-- C8 as stated is false at one input: when the storage engine raises
during query execution (the source wraps nothing in try/finally),
`conn.close()` is skipped and one handle is left open on that exit
path. -/
theorem conexion_no_liberada_contraejemplo :
    consultar_tickets_conn (some [tkAlta]) none none 20 true =
      (.error (.storeFailure fallo_almacenamiento_msg), 1) ∧
    (consultar_tickets_conn (some [tkAlta]) none none 20 true).2 ≠ 0 :=
  ⟨by decide, by decide⟩

theorem consultar_tickets_estado_conn_cierra (ts : Store) (pfiltro : Option String)
    (estado : Option String) (limite : Int) :
    (consultar_tickets_estado_conn ts pfiltro estado limite false).2 = 0 := by
  unfold consultar_tickets_estado_conn
  cases normalizar_filtro estado with
  | none => rfl
  | some e =>
    simp only
    by_cases hv : e ∈ estados_validos
    · rw [if_pos hv]; rfl
    · rw [if_neg hv]

/-- C8 (amended): in every invocation of each of the three tools that
does not hit an underlying storage-engine error, no handle remains open
on exit: the connection is released on success and on validation-failure
raises, and it is never opened when the store file is missing.  On a
storage-engine error the handle is not released. -/
theorem conexion_liberada (store : Option Store) (prioridad estado : Option String)
    (busqueda campo agrupar_por : String) (limite : Int) :
    (consultar_tickets_conn store prioridad estado limite false).2 = 0 ∧
    (obtener_estadisticas_conn store agrupar_por false).2 = 0 ∧
    (buscar_tickets_por_texto_conn store busqueda campo limite false).2 = 0 := by
  refine ⟨?_, ?_, ?_⟩
  · cases store with
    | none => rfl
    | some ts =>
      unfold consultar_tickets_conn get_db_connection
      simp only
      cases normalizar_filtro prioridad with
      | none => exact consultar_tickets_estado_conn_cierra ts none estado limite
      | some p =>
        simp only
        by_cases hv : p ∈ prioridades_validas
        · rw [if_pos hv]
          exact consultar_tickets_estado_conn_cierra ts (some p) estado limite
        · rw [if_neg hv]
  · cases store with
    | none => rfl
    | some ts =>
      unfold obtener_estadisticas_conn get_db_connection
      simp only
      by_cases hv : minusculas agrupar_por ∈ criterios_validos
      · rw [if_pos hv]
        cases obtener_estadisticas (some ts) agrupar_por <;> rfl
      · rw [if_neg hv]
  · cases store with
    | none => rfl
    | some ts =>
      unfold buscar_tickets_por_texto_conn get_db_connection
      simp only
      by_cases hv : minusculas campo ∈ campos_validos
      · rw [if_pos hv]
        cases buscar_tickets_por_texto (some ts) busqueda campo limite <;> rfl
      · rw [if_neg hv]

/-- C9: matching in `buscar_tickets_por_texto` is the SQL LIKE test of
the field against the search text wrapped with wildcard markers on both
ends (case-insensitive substring semantics); embedded wildcard characters
in the search text act as wildcards, not escaped: the search text "a%b",
which contains a percent sign, matches a ticket whose subject does not
contain it as a literal substring. -/
theorem busqueda_es_like_con_comodines :
    (∀ ts busqueda limite r,
      buscar_tickets_por_texto (some ts) busqueda "asunto" limite = .ok r →
      ∀ t ∈ r, like_coincide (patron_busqueda busqueda) t.asunto = true) ∧
    (Char.ofNat 37 ∈ "a%b".data ∧
     buscar_tickets_por_texto (some [tkComodin]) "a%b" "asunto" 20 = .ok [tkComodin] ∧
     esSubcadena (minusculas "a%b").data (minusculas tkComodin.asunto).data = false) := by
  constructor
  · intro ts busqueda limite r hres t ht
    have heq := buscar_tickets_ok_eq ts busqueda "asunto" limite r hres
    subst heq
    rw [show minusculas "asunto" = "asunto" from by decide] at ht
    have h3 := (mem_ordenar_filtrado.mp (List.mem_of_mem_take ht)).2
    unfold coincide_busqueda at h3
    rw [if_neg (by decide), if_neg (by decide)] at h3
    exact h3
  · exact ⟨by decide, by decide, by decide⟩

/-- Witness for C9: a returned ticket of a concrete subject search
satisfies the wrapped LIKE pattern. -/
theorem busqueda_es_like_con_comodines_witness :
    like_coincide (patron_busqueda "error") tkAlta.asunto = true :=
  busqueda_es_like_con_comodines.1 [tkAlta] "error" 20 [tkAlta] (by decide) tkAlta
    (by decide)

end Soporte
